import Mathlib

/-!
Shallow embedding of the YouTube monitoring plugin of `0xTaneja/game-node`
(storage layer `plugins/youtubePlugin/db/storage.ts`, analytics service
`analyticService.ts`, scheduler `plugins/youtubePlugin/src/youtubeScheduler.ts`),
together with theorems settling the spec claims about it.

JavaScript numbers are modelled as rationals (`ℚ`); metric counters, timestamps
(milliseconds) and percentages all live in `ℚ`.  Records are modelled as Lean
structures; the Mongo collection is modelled as a list of documents keyed by
`channelId`.
-/

/-- Embedding of `ChannelMetrics` from `db/storage.ts`: one metric snapshot. -/
structure ChannelMetrics where
  subscribers : ℚ
  views : ℚ
  likes : ℚ
  lastVideoId : String
  lastVideoTimestamp : ℚ
  lastChecked : ℚ
deriving DecidableEq

/-- Embedding of the `IChannel` document from `db/storage.ts`. -/
structure ChannelDoc where
  channelId : String
  name : String
  isTracking : Bool
  lastTrendingDate : ℚ
  monitoringTier : ℕ
  metrics : ChannelMetrics
  metricsHistory : List ChannelMetrics
deriving DecidableEq

/-- Embedding of `getAdaptiveThreshold` (`db/storage.ts`): base threshold per
metric kind (`baseThresholds[metricType] || 0.01`), then magnitude-banded
multipliers `×2 / ×1.5 / ×1 / ×0.5` with kind-specific band edges. -/
def getAdaptiveThreshold (metricType : String) (count : ℚ) : ℚ :=
  let baseThreshold : ℚ :=
    if metricType = "VIEWS_CHANGE" then 1/1000
    else if metricType = "LIKES_CHANGE" then 2/1000
    else if metricType = "SUBS_CHANGE" then 1/1000
    else 1/100
  if metricType = "SUBS_CHANGE" then
    if count < 10000 then baseThreshold * 2
    else if count < 100000 then baseThreshold * (3/2)
    else if count < 1000000 then baseThreshold
    else baseThreshold * (1/2)
  else if metricType = "VIEWS_CHANGE" then
    if count < 100000 then baseThreshold * 2
    else if count < 1000000 then baseThreshold * (3/2)
    else if count < 10000000 then baseThreshold
    else baseThreshold * (1/2)
  else if metricType = "LIKES_CHANGE" then
    if count < 10000 then baseThreshold * 2
    else if count < 100000 then baseThreshold * (3/2)
    else if count < 1000000 then baseThreshold
    else baseThreshold * (1/2)
  else baseThreshold

/-- Embedding of `calculatePercentageChange` (`db/storage.ts`): result is in
percent units (`((new-old)/old)*100`), with `old = 0 ↦ (new > 0 ? 100 : 0)`. -/
def calculatePercentageChange (oldValue newValue : ℚ) : ℚ :=
  if oldValue = 0 then (if 0 < newValue then 100 else 0)
  else (newValue - oldValue) / oldValue * 100

/-- Embedding of `isSignificantChange` (`db/storage.ts`). -/
def isSignificantChange (oldValue newValue threshold : ℚ) : Bool :=
  if oldValue = 0 then 0 < newValue
  else |(newValue - oldValue) / oldValue| > threshold

/-- Embedding of the per-metric significance test inlined in
`updateChannelMetrics` (`db/storage.ts` lines 183-185):
`Math.abs(change / 100) > getAdaptiveThreshold(metricType, newValue)`. -/
def updateSignificantFlag (metricType : String) (oldValue newValue : ℚ) : Bool :=
  |calculatePercentageChange oldValue newValue / 100| >
    getAdaptiveThreshold metricType newValue

/-- Embedding of `AnalyticService.calculatePercentChange` (`analyticService.ts`):
returns `0` whenever `old = 0`, regardless of `new`. -/
def calculatePercentChange (oldValue newValue : ℚ) : ℚ :=
  if oldValue = 0 then 0 else (newValue - oldValue) / oldValue * 100

lemma getAdaptiveThreshold_subs (m : ℚ) :
    getAdaptiveThreshold "SUBS_CHANGE" m =
      if m < 10000 then 2/1000 else if m < 100000 then 3/2000
      else if m < 1000000 then 1/1000 else 1/2000 := by
  simp only [getAdaptiveThreshold, if_pos rfl,
    if_neg (show ("SUBS_CHANGE" : String) ≠ "VIEWS_CHANGE" by decide),
    if_neg (show ("SUBS_CHANGE" : String) ≠ "LIKES_CHANGE" by decide)]
  split_ifs <;> norm_num

lemma getAdaptiveThreshold_views (m : ℚ) :
    getAdaptiveThreshold "VIEWS_CHANGE" m =
      if m < 100000 then 2/1000 else if m < 1000000 then 3/2000
      else if m < 10000000 then 1/1000 else 1/2000 := by
  simp only [getAdaptiveThreshold, if_pos rfl,
    if_neg (show ("VIEWS_CHANGE" : String) ≠ "SUBS_CHANGE" by decide),
    if_neg (show ("VIEWS_CHANGE" : String) ≠ "LIKES_CHANGE" by decide)]
  split_ifs <;> norm_num

lemma getAdaptiveThreshold_likes (m : ℚ) :
    getAdaptiveThreshold "LIKES_CHANGE" m =
      if m < 10000 then 4/1000 else if m < 100000 then 3/1000
      else if m < 1000000 then 2/1000 else 1/1000 := by
  simp only [getAdaptiveThreshold, if_pos rfl,
    if_neg (show ("LIKES_CHANGE" : String) ≠ "SUBS_CHANGE" by decide),
    if_neg (show ("LIKES_CHANGE" : String) ≠ "VIEWS_CHANGE" by decide)]
  split_ifs <;> norm_num

lemma getAdaptiveThreshold_default (k : String) (m : ℚ)
    (h1 : k ≠ "SUBS_CHANGE") (h2 : k ≠ "VIEWS_CHANGE") (h3 : k ≠ "LIKES_CHANGE") :
    getAdaptiveThreshold k m = 1/100 := by
  simp only [getAdaptiveThreshold, if_neg h1, if_neg h2, if_neg h3]

/-- C2: for every metric kind and non-negative magnitude the adaptive threshold
is strictly positive, it is non-increasing in the magnitude, and every metric
kind other than `SUBS_CHANGE`, `VIEWS_CHANGE`, `LIKES_CHANGE` gets the default
base threshold `0.01`. -/
theorem getAdaptiveThreshold_pos_antitone_default
    (k : String) (m m1 m2 : ℚ) (hm : 0 ≤ m) (h12 : m1 ≤ m2) :
    0 < getAdaptiveThreshold k m ∧
    getAdaptiveThreshold k m2 ≤ getAdaptiveThreshold k m1 ∧
    (k ≠ "SUBS_CHANGE" → k ≠ "VIEWS_CHANGE" → k ≠ "LIKES_CHANGE" →
      getAdaptiveThreshold k m = 1/100) := by
  by_cases hs : k = "SUBS_CHANGE"
  · subst hs
    refine ⟨?_, ?_, fun h _ _ => absurd rfl h⟩ <;>
      · simp only [getAdaptiveThreshold_subs]
        split_ifs <;> linarith
  by_cases hv : k = "VIEWS_CHANGE"
  · subst hv
    refine ⟨?_, ?_, fun _ h _ => absurd rfl h⟩ <;>
      · simp only [getAdaptiveThreshold_views]
        split_ifs <;> linarith
  by_cases hl : k = "LIKES_CHANGE"
  · subst hl
    refine ⟨?_, ?_, fun _ _ h => absurd rfl h⟩ <;>
      · simp only [getAdaptiveThreshold_likes]
        split_ifs <;> linarith
  · rw [getAdaptiveThreshold_default k m hs hv hl,
      getAdaptiveThreshold_default k m1 hs hv hl,
      getAdaptiveThreshold_default k m2 hs hv hl]
    norm_num

/-- The adaptive threshold is always below `1` (= 100%); every band value is at
most `0.01`. -/
lemma getAdaptiveThreshold_lt_one (k : String) (m : ℚ) :
    getAdaptiveThreshold k m < 1 := by
  by_cases hs : k = "SUBS_CHANGE"
  · subst hs; rw [getAdaptiveThreshold_subs]; split_ifs <;> norm_num
  by_cases hv : k = "VIEWS_CHANGE"
  · subst hv; rw [getAdaptiveThreshold_views]; split_ifs <;> norm_num
  by_cases hl : k = "LIKES_CHANGE"
  · subst hl; rw [getAdaptiveThreshold_likes]; split_ifs <;> norm_num
  · rw [getAdaptiveThreshold_default k m hs hv hl]; norm_num

/-- Witness for `getAdaptiveThreshold_pos_antitone_default` at a concrete input. -/
theorem getAdaptiveThreshold_pos_antitone_default_witness :
    0 < getAdaptiveThreshold "SUBS_CHANGE" 5000 ∧
    getAdaptiveThreshold "SUBS_CHANGE" 200000 ≤ getAdaptiveThreshold "SUBS_CHANGE" 5000 ∧
    (("SUBS_CHANGE" : String) ≠ "SUBS_CHANGE" → ("SUBS_CHANGE" : String) ≠ "VIEWS_CHANGE" →
      ("SUBS_CHANGE" : String) ≠ "LIKES_CHANGE" →
      getAdaptiveThreshold "SUBS_CHANGE" 5000 = 1/100) :=
  getAdaptiveThreshold_pos_antitone_default "SUBS_CHANGE" 5000 5000 200000
    (by norm_num) (by norm_num)

/-- Embedding of `MetricsAnalysis` from `analyticService.ts`. -/
structure MetricsAnalysis where
  hasSignificantChange : Bool
  hasSignificantSubsChange : Bool
  hasSignificantViewsChange : Bool
  hasSignificantLikesChange : Bool
  subsChangePercent : ℚ
  viewsChangePercent : ℚ
  likesChangePercent : ℚ
deriving DecidableEq

/-- Embedding of `AnalyticService.analyzeMetricsChanges` (`analyticService.ts`):
per-metric percent change via `calculatePercentChange`, compared (in percent
units) against the adaptive threshold with `>=`; the likes check additionally
requires `oldMetrics.likes > 0`. -/
def analyzeMetricsChanges (oldMetrics newMetrics : ChannelMetrics) : MetricsAnalysis :=
  let subsChangePercent := calculatePercentChange oldMetrics.subscribers newMetrics.subscribers
  let viewsChangePercent := calculatePercentChange oldMetrics.views newMetrics.views
  let likesChangePercent := calculatePercentChange oldMetrics.likes newMetrics.likes
  let subsThreshold := getAdaptiveThreshold "SUBS_CHANGE" newMetrics.subscribers
  let viewsThreshold := getAdaptiveThreshold "VIEWS_CHANGE" newMetrics.views
  let likesThreshold := getAdaptiveThreshold "LIKES_CHANGE" newMetrics.likes
  let hasSignificantSubsChange : Bool := |subsChangePercent| ≥ subsThreshold
  let hasSignificantViewsChange : Bool := |viewsChangePercent| ≥ viewsThreshold
  let hasSignificantLikesChange : Bool :=
    0 < oldMetrics.likes ∧ |likesChangePercent| ≥ likesThreshold
  { hasSignificantChange :=
      hasSignificantSubsChange || hasSignificantViewsChange || hasSignificantLikesChange
    hasSignificantSubsChange := hasSignificantSubsChange
    hasSignificantViewsChange := hasSignificantViewsChange
    hasSignificantLikesChange := hasSignificantLikesChange
    subsChangePercent := subsChangePercent
    viewsChangePercent := viewsChangePercent
    likesChangePercent := likesChangePercent }

/-- A metric snapshot whose counters are all zero. -/
def zeroCountersMetrics : ChannelMetrics :=
  { subscribers := 0, views := 0, likes := 0
    lastVideoId := "", lastVideoTimestamp := 0, lastChecked := 0 }

/-- A snapshot where only the subscriber counter became positive (5). -/
def subsFiveMetrics : ChannelMetrics :=
  { subscribers := 5, views := 0, likes := 0
    lastVideoId := "", lastVideoTimestamp := 0, lastChecked := 1000 }

/-- C1 counterexample: in the `AnalyticService` change-detection path, a
subscriber count going from `0` to `5` yields percent change `0` and is NOT
flagged significant, contradicting the claim that `old == 0 ∧ new > 0` is
always treated as maximally significant. -/
theorem calculatePercentChange_zero_to_positive_not_flagged :
    zeroCountersMetrics.subscribers = 0 ∧
    0 < subsFiveMetrics.subscribers ∧
    calculatePercentChange zeroCountersMetrics.subscribers subsFiveMetrics.subscribers = 0 ∧
    (analyzeMetricsChanges zeroCountersMetrics subsFiveMetrics).hasSignificantChange = false := by
  refine ⟨rfl, by norm_num [subsFiveMetrics], ?_, ?_⟩
  · norm_num [calculatePercentChange, zeroCountersMetrics, subsFiveMetrics]
  · simp only [analyzeMetricsChanges, zeroCountersMetrics, subsFiveMetrics]
    norm_num [calculatePercentChange, getAdaptiveThreshold_subs,
      getAdaptiveThreshold_views, getAdaptiveThreshold_likes]

/-- C1 amended: in the storage change-detection path, the percent-change ratio
(`calculatePercentageChange / 100`) equals `(new - old) / old` when `old ≠ 0`,
is `0` when `old = 0 = new`, and is `1` (i.e. 100%, above every adaptive
threshold, hence flagged significant by `updateChannelMetrics`'s inline test and
by `isSignificantChange`) when `old = 0 < new`; the `AnalyticService` variant
`calculatePercentChange` instead returns `0` whenever `old = 0`. -/
theorem percentChange_detection_zero_rule
    (oldValue newValue threshold : ℚ) (t : String) :
    (oldValue ≠ 0 →
      calculatePercentageChange oldValue newValue / 100 = (newValue - oldValue) / oldValue) ∧
    calculatePercentageChange 0 0 = 0 ∧
    (0 < newValue →
      calculatePercentageChange 0 newValue = 100 ∧
      updateSignificantFlag t 0 newValue = true) ∧
    isSignificantChange 0 newValue threshold = decide (0 < newValue) ∧
    calculatePercentChange 0 newValue = 0 := by
  refine ⟨?_, ?_, ?_, ?_, ?_⟩
  · intro h
    rw [calculatePercentageChange, if_neg h]
    ring
  · simp [calculatePercentageChange]
  · intro hnew
    have h100 : calculatePercentageChange 0 newValue = 100 := by
      rw [calculatePercentageChange, if_pos rfl, if_pos hnew]
    refine ⟨h100, ?_⟩
    simp only [updateSignificantFlag, h100, decide_eq_true_eq]
    rw [show |(100 : ℚ) / 100| = 1 by norm_num]
    exact getAdaptiveThreshold_lt_one t newValue
  · simp [isSignificantChange]
  · simp [calculatePercentChange]

/-- Witness for `percentChange_detection_zero_rule` at a concrete input. -/
theorem percentChange_detection_zero_rule_witness :
    (((2 : ℚ) ≠ 0 →
      calculatePercentageChange 2 5 / 100 = ((5 : ℚ) - 2) / 2) ∧
    calculatePercentageChange 0 0 = 0 ∧
    ((0 : ℚ) < 5 →
      calculatePercentageChange 0 5 = 100 ∧
      updateSignificantFlag "SUBS_CHANGE" 0 5 = true) ∧
    isSignificantChange 0 5 (5/100) = decide ((0 : ℚ) < 5) ∧
    calculatePercentChange 0 5 = 0) :=
  percentChange_detection_zero_rule 2 5 (5/100) "SUBS_CHANGE"

/-- Embedding of the history/metrics mutation performed by
`updateChannelMetrics` (`db/storage.ts` lines 199-219) on one found document:
if the history already holds at least 30 entries, `shift()` the oldest (front)
entry; then `push` a copy of the current metrics at the back and overwrite the
current metrics with the new snapshot. -/
def updateMetricsStep (channel : ChannelDoc) (metrics : ChannelMetrics) : ChannelDoc :=
  let trimmed :=
    if 30 ≤ channel.metricsHistory.length then channel.metricsHistory.drop 1
    else channel.metricsHistory
  { channel with metrics := metrics, metricsHistory := trimmed ++ [channel.metrics] }

/-- A sequence of `updateChannelMetrics` calls on the same document. -/
def updateMetricsRun (channel : ChannelDoc) (updates : List ChannelMetrics) : ChannelDoc :=
  updates.foldl updateMetricsStep channel

/-- The last `n` elements of a list (all of it when it is shorter). -/
def lastN (n : ℕ) (l : List α) : List α := l.drop (l.length - n)

lemma lastN_of_length_le {l : List α} {n : ℕ} (h : l.length ≤ n) : lastN n l = l := by
  simp [lastN, Nat.sub_eq_zero_of_le h]

lemma lastN_cons_of_le {l : List α} {n : ℕ} (h : n ≤ l.length) (a : α) :
    lastN n (a :: l) = lastN n l := by
  simp only [lastN, List.length_cons, Nat.succ_sub h, List.drop_succ_cons]

lemma lastN_length_le (n : ℕ) (l : List α) : (lastN n l).length ≤ n := by
  simp only [lastN, List.length_drop]
  omega

lemma lastN_drop_one_append {l : List α} (hl : l.length = 30) {r : List α}
    (hr : 1 ≤ r.length) : lastN 30 (l.drop 1 ++ r) = lastN 30 (l ++ r) := by
  cases l with
  | nil => simp at hl
  | cons a t =>
      have ht : t.length = 29 := by simpa using hl
      have h30 : 30 ≤ (t ++ r).length := by
        simp only [List.length_append, ht]
        omega
      simp only [List.drop_succ_cons, List.drop_zero, List.cons_append,
        lastN_cons_of_le h30]

lemma updateMetricsStep_length_le {c : ChannelDoc} (m : ChannelMetrics)
    (h : c.metricsHistory.length ≤ 30) :
    (updateMetricsStep c m).metricsHistory.length ≤ 30 := by
  simp only [updateMetricsStep]
  split_ifs with h30 <;> simp only [List.length_append, List.length_drop,
    List.length_singleton] <;> omega

lemma updateMetricsStep_history {c : ChannelDoc} (m : ChannelMetrics)
    (h : c.metricsHistory.length ≤ 30) :
    (updateMetricsStep c m).metricsHistory = lastN 30 (c.metricsHistory ++ [c.metrics]) := by
  simp only [updateMetricsStep]
  split_ifs with h30
  · have h30' : c.metricsHistory.length = 30 := le_antisymm h h30
    rw [show (lastN 30 (c.metricsHistory ++ [c.metrics])) =
        lastN 30 (c.metricsHistory.drop 1 ++ [c.metrics]) from
      (lastN_drop_one_append h30' (by simp)).symm]
    rw [lastN_of_length_le]
    simp only [List.length_append, List.length_drop, List.length_singleton, h30']
    omega
  · rw [lastN_of_length_le]
    simp only [List.length_append, List.length_singleton]
    omega

lemma updateMetricsRun_history (c : ChannelDoc) (ms : List ChannelMetrics)
    (h : c.metricsHistory.length ≤ 30) :
    (updateMetricsRun c ms).metricsHistory =
      lastN 30 (c.metricsHistory ++ (c.metrics :: ms).dropLast) := by
  induction ms generalizing c with
  | nil =>
      simp only [updateMetricsRun, List.foldl_nil, List.dropLast_single,
        List.append_nil]
      exact (lastN_of_length_le h).symm
  | cons m ms ih =>
      have hstep := updateMetricsStep_length_le (c := c) m h
      have hrec := ih (updateMetricsStep c m) hstep
      rw [show updateMetricsRun c (m :: ms) = updateMetricsRun (updateMetricsStep c m) ms
        from rfl]
      rw [hrec]
      have hmet : (updateMetricsStep c m).metrics = m := rfl
      rw [hmet]
      rw [List.dropLast_cons_of_ne_nil (List.cons_ne_nil m ms)]
      simp only [updateMetricsStep]
      rw [show c.metrics :: (m :: ms).dropLast = [c.metrics] ++ (m :: ms).dropLast from rfl,
        ← List.append_assoc]
      split_ifs with h30
      · have h30' : c.metricsHistory.length = 30 := le_antisymm h h30
        rw [List.append_assoc, List.append_assoc]
        exact lastN_drop_one_append h30' (by simp)
      · rw [List.append_assoc]

/-- C3: starting from a document whose history is within the 30-entry bound,
any sequence of `updateChannelMetrics` calls keeps the history within 30
entries, leaves it equal to the 30 most recent pre-update snapshots in order
(FIFO), reaches exactly 30 entries once at least 30 updates have run, and each
single update appends the previous current snapshot at the back, evicting
exactly the front entry when already at capacity. -/
theorem metricsHistory_bounded_fifo (c : ChannelDoc) (ms : List ChannelMetrics)
    (m : ChannelMetrics) (h : c.metricsHistory.length ≤ 30) :
    (updateMetricsRun c ms).metricsHistory.length ≤ 30 ∧
    (updateMetricsRun c ms).metricsHistory =
      lastN 30 (c.metricsHistory ++ (c.metrics :: ms).dropLast) ∧
    (30 ≤ ms.length → (updateMetricsRun c ms).metricsHistory.length = 30) ∧
    (c.metricsHistory.length < 30 →
      (updateMetricsStep c m).metricsHistory = c.metricsHistory ++ [c.metrics]) ∧
    (c.metricsHistory.length = 30 →
      (updateMetricsStep c m).metricsHistory = c.metricsHistory.drop 1 ++ [c.metrics]) := by
  have hist := updateMetricsRun_history c ms h
  refine ⟨?_, hist, ?_, ?_, ?_⟩
  · rw [hist]; exact lastN_length_le 30 _
  · intro h30
    rw [hist]
    simp only [lastN, List.length_drop, List.length_append, List.length_dropLast,
      List.length_cons]
    omega
  · intro hlt
    simp only [updateMetricsStep, if_neg (by omega : ¬ 30 ≤ c.metricsHistory.length)]
  · intro heq
    simp only [updateMetricsStep, if_pos (by omega : 30 ≤ c.metricsHistory.length)]

/-- A concrete starting document used by witnesses. -/
def sampleDoc : ChannelDoc :=
  { channelId := "UC123", name := "Sample", isTracking := true
    lastTrendingDate := 0, monitoringTier := 1
    metrics := zeroCountersMetrics, metricsHistory := [] }

/-- A concrete list of 31 successive snapshots. -/
def sampleUpdates : List ChannelMetrics :=
  (List.range 31).map fun i =>
    { subscribers := i, views := 2 * i, likes := i
      lastVideoId := "", lastVideoTimestamp := 0, lastChecked := i }

/-- Witness for `metricsHistory_bounded_fifo` at a concrete input. -/
theorem metricsHistory_bounded_fifo_witness :
    sampleDoc.metricsHistory.length ≤ 30 ∧
    ((updateMetricsRun sampleDoc sampleUpdates).metricsHistory.length ≤ 30 ∧
    (updateMetricsRun sampleDoc sampleUpdates).metricsHistory =
      lastN 30 (sampleDoc.metricsHistory ++ (sampleDoc.metrics :: sampleUpdates).dropLast) ∧
    (30 ≤ sampleUpdates.length →
      (updateMetricsRun sampleDoc sampleUpdates).metricsHistory.length = 30) ∧
    (sampleDoc.metricsHistory.length < 30 →
      (updateMetricsStep sampleDoc zeroCountersMetrics).metricsHistory =
        sampleDoc.metricsHistory ++ [sampleDoc.metrics]) ∧
    (sampleDoc.metricsHistory.length = 30 →
      (updateMetricsStep sampleDoc zeroCountersMetrics).metricsHistory =
        sampleDoc.metricsHistory.drop 1 ++ [sampleDoc.metrics])) :=
  ⟨by decide, metricsHistory_bounded_fifo sampleDoc sampleUpdates zeroCountersMetrics (by decide)⟩

/-- Embedding of the Mongo lookup `Channel.findOne({channelId})`. -/
def findChannel (db : List ChannelDoc) (cid : String) : Option ChannelDoc :=
  db.find? fun ch => ch.channelId = cid

/-- Embedding of `updateChannelMetrics` (`db/storage.ts`) at the collection
level: look the document up by `channelId`; when absent, log and return `null`
without touching the store; when present, apply the history push / metrics
overwrite and save the document back. -/
def updateChannelMetricsDB (db : List ChannelDoc) (cid : String)
    (metrics : ChannelMetrics) : Option ChannelDoc × List ChannelDoc :=
  match findChannel db cid with
  | none => (none, db)
  | some ch =>
      let updated := updateMetricsStep ch metrics
      (some updated, db.map fun c => if c.channelId = cid then updated else c)

/-- C10: when no document carries the requested `channelId`,
`updateChannelMetrics` returns `null` and the store is left exactly as it
was — no record is created, modified or removed. -/
theorem updateChannelMetrics_missing_channel_noop (db : List ChannelDoc)
    (cid : String) (m : ChannelMetrics) (h : findChannel db cid = none) :
    updateChannelMetricsDB db cid m = (none, db) := by
  unfold updateChannelMetricsDB
  rw [h]

/-- Witness for `updateChannelMetrics_missing_channel_noop` at a concrete input. -/
theorem updateChannelMetrics_missing_channel_noop_witness :
    findChannel [sampleDoc] "UC999" = none ∧
    updateChannelMetricsDB [sampleDoc] "UC999" zeroCountersMetrics = (none, [sampleDoc]) :=
  ⟨by decide, updateChannelMetrics_missing_channel_noop [sampleDoc] "UC999"
    zeroCountersMetrics (by decide)⟩

/-- Embedding of `AnalyticService.determineMonitoringTier` (`analyticService.ts`). -/
def determineMonitoringTier (daysSinceTrending : ℚ) : ℕ :=
  if daysSinceTrending < 1 then 1
  else if daysSinceTrending < 3 then 2
  else 3

/-- Embedding of the per-channel body of `YoutubeScheduler.cleanupExpiredChannels`
(`youtubeScheduler.ts` lines 661-689): compute days since the last trending
date; past the monitoring window stop tracking, otherwise recompute the tier
from the day buckets and store it when it changed. -/
def cleanupChannelStep (monitoringDays now : ℚ) (channel : ChannelDoc) : ChannelDoc :=
  let daysSinceTrending := (now - channel.lastTrendingDate) / (24 * 60 * 60 * 1000)
  if monitoringDays < daysSinceTrending then { channel with isTracking := false }
  else
    let newTier : ℕ :=
      if 1 ≤ daysSinceTrending ∧ daysSinceTrending < 3 then 2
      else if 3 ≤ daysSinceTrending then 3
      else 1
    if newTier ≠ channel.monitoringTier then { channel with monitoringTier := newTier }
    else channel

/-- Embedding of the full sweep of `cleanupExpiredChannels` over the tracked
channels. -/
def cleanupExpiredChannels (monitoringDays now : ℚ) (channels : List ChannelDoc) :
    List ChannelDoc :=
  channels.map (cleanupChannelStep monitoringDays now)

lemma cleanupChannelStep_channelId (monitoringDays now : ℚ) (c : ChannelDoc) :
    (cleanupChannelStep monitoringDays now c).channelId = c.channelId := by
  simp only [cleanupChannelStep]
  split_ifs <;> rfl

lemma cleanupChannelStep_newTier (monitoringDays now d : ℚ) (c : ChannelDoc)
    (hd : d = (now - c.lastTrendingDate) / (24 * 60 * 60 * 1000))
    (hle : d ≤ monitoringDays) :
    (cleanupChannelStep monitoringDays now c).monitoringTier = determineMonitoringTier d ∧
    (cleanupChannelStep monitoringDays now c).isTracking = c.isTracking := by
  have hband : (if 1 ≤ d ∧ d < 3 then 2 else if 3 ≤ d then 3 else 1) =
      determineMonitoringTier d := by
    unfold determineMonitoringTier
    by_cases hb : 1 ≤ d ∧ d < 3
    · rw [if_pos hb, if_neg (by linarith [hb.1] : ¬ d < 1), if_pos hb.2]
    · rw [if_neg hb]
      by_cases h3 : 3 ≤ d
      · rw [if_pos h3, if_neg (by linarith : ¬ d < 1), if_neg (by linarith : ¬ d < 3)]
      · have h1 : d < 1 := by
          by_contra hh
          push_neg at hh
          exact hb ⟨hh, by linarith⟩
        rw [if_neg h3, if_pos h1]
  simp only [cleanupChannelStep]
  rw [← hd]
  rw [if_neg (by linarith : ¬ monitoringDays < d), hband]
  constructor
  · split_ifs with h
    · rfl
    · omega
  · split_ifs <;> rfl

/-- C4: the re-tiering sweep assigns tier 1 under one day since the last
trending promotion, tier 2 in `[1,3)` days, tier 3 from 3 days up to the
retention window (default 7 days); past the window the channel is deactivated
(`isTracking := false`), and the sweep never deletes a record (the stored
`channelId` sequence is unchanged). -/
theorem cleanup_retier_retention (now d : ℚ) (c : ChannelDoc)
    (channels : List ChannelDoc)
    (hd : d = (now - c.lastTrendingDate) / (24 * 60 * 60 * 1000)) :
    (d ≤ 7 → (cleanupChannelStep 7 now c).monitoringTier = determineMonitoringTier d ∧
      (cleanupChannelStep 7 now c).isTracking = c.isTracking) ∧
    (d < 1 → determineMonitoringTier d = 1) ∧
    (1 ≤ d → d < 3 → determineMonitoringTier d = 2) ∧
    (3 ≤ d → determineMonitoringTier d = 3) ∧
    (7 < d → (cleanupChannelStep 7 now c).isTracking = false) ∧
    (cleanupExpiredChannels 7 now channels).map ChannelDoc.channelId =
      channels.map ChannelDoc.channelId := by
  refine ⟨fun hle => cleanupChannelStep_newTier 7 now d c hd hle, ?_, ?_, ?_, ?_, ?_⟩
  · intro h1
    unfold determineMonitoringTier
    rw [if_pos h1]
  · intro h1 h3
    unfold determineMonitoringTier
    rw [if_neg (by linarith : ¬ d < 1), if_pos h3]
  · intro h3
    unfold determineMonitoringTier
    rw [if_neg (by linarith : ¬ d < 1), if_neg (by linarith : ¬ d < 3)]
  · intro h7
    unfold cleanupChannelStep
    rw [← hd, if_pos h7]
  · induction channels with
    | nil => rfl
    | cons a t ih =>
        simp only [cleanupExpiredChannels, List.map_cons] at ih ⊢
        rw [cleanupChannelStep_channelId, ih]

/-- Witness for `cleanup_retier_retention` at a concrete input: half a day since
trending. -/
theorem cleanup_retier_retention_witness :
    ((1/2 : ℚ) = ((43200000 : ℚ) - sampleDoc.lastTrendingDate) / (24 * 60 * 60 * 1000)) ∧
    (((1/2 : ℚ) ≤ 7 →
      (cleanupChannelStep 7 43200000 sampleDoc).monitoringTier = determineMonitoringTier (1/2) ∧
      (cleanupChannelStep 7 43200000 sampleDoc).isTracking = sampleDoc.isTracking) ∧
    ((1/2 : ℚ) < 1 → determineMonitoringTier (1/2) = 1) ∧
    ((1 : ℚ) ≤ 1/2 → (1/2 : ℚ) < 3 → determineMonitoringTier (1/2) = 2) ∧
    ((3 : ℚ) ≤ 1/2 → determineMonitoringTier (1/2) = 3) ∧
    ((7 : ℚ) < 1/2 → (cleanupChannelStep 7 43200000 sampleDoc).isTracking = false) ∧
    (cleanupExpiredChannels 7 43200000 [sampleDoc]).map ChannelDoc.channelId =
      [sampleDoc].map ChannelDoc.channelId) :=
  ⟨by norm_num [sampleDoc], cleanup_retier_retention 43200000 (1/2) sampleDoc [sampleDoc]
    (by norm_num [sampleDoc])⟩

/-- Embedding of `getAllTrackedChannels` (`db/storage.ts`): the base query is
`{ isTracking: true }`. -/
def getAllTrackedChannels (channels : List ChannelDoc) : List ChannelDoc :=
  channels.filter fun c => c.isTracking

/-- Embedding of the tier selection in `YoutubeScheduler.checkAllChannelMetrics`
(`youtubeScheduler.ts` lines 142-168): tier 1 on every fire, tier 2 only when
the wall-clock hour is even (`currentHour % 2 === 0`), tier 3 only at hour 0,
in that order. -/
def checkAllChannelMetricsSelection (channels : List ChannelDoc) (currentHour : ℕ) :
    List ChannelDoc :=
  let tracked := getAllTrackedChannels channels
  (tracked.filter fun c => c.monitoringTier = 1)
    ++ (if currentHour % 2 = 0 then tracked.filter fun c => c.monitoringTier = 2 else [])
    ++ (if currentHour = 0 then tracked.filter fun c => c.monitoringTier = 3 else [])

/-- C5: on each metrics-loop fire the processed channels are exactly the
tracked tier-1 channels, plus the tracked tier-2 channels when the current hour
is even, plus the tracked tier-3 channels when the current hour is 0. -/
theorem metricsLoop_tier_partition (channels : List ChannelDoc) (currentHour : ℕ)
    (c : ChannelDoc) :
    c ∈ checkAllChannelMetricsSelection channels currentHour ↔
      c ∈ channels ∧ c.isTracking = true ∧
        (c.monitoringTier = 1 ∨ (c.monitoringTier = 2 ∧ currentHour % 2 = 0) ∨
          (c.monitoringTier = 3 ∧ currentHour = 0)) := by
  by_cases h0 : currentHour = 0
  · have h2 : currentHour % 2 = 0 := by omega
    simp [checkAllChannelMetricsSelection, getAllTrackedChannels, h2, h0,
      List.mem_append, List.mem_filter]
    tauto
  · by_cases h2 : currentHour % 2 = 0
    · simp [checkAllChannelMetricsSelection, getAllTrackedChannels, h2, h0,
        List.mem_append, List.mem_filter]
      tauto
    · simp [checkAllChannelMetricsSelection, getAllTrackedChannels, h2, h0,
        List.mem_append, List.mem_filter]
      tauto

/-- Embedding of the minimum-post-interval computation in
`YoutubeScheduler.processChannels` (`youtubeScheduler.ts` lines 290-304):
default 6 hours, 4 for tier 1, 12 for tier 3, then `×0.75` above 10M
subscribers else `×1.25` below 100K subscribers. -/
def minHoursForPost (monitoringTier : ℕ) (subscribers : ℚ) : ℚ :=
  let base : ℚ := if monitoringTier = 1 then 4 else if monitoringTier = 3 then 12 else 6
  if 10000000 < subscribers then base * (3/4)
  else if subscribers < 100000 then base * (5/4)
  else base

/-- Embedding of the posting gate in `processChannels` (`youtubeScheduler.ts`
lines 283-342): the metrics-update tweet is attempted exactly when a
significant change was detected and `hoursElapsed >= minHoursForPost`; in that
case `channel.lastPostedAt` is set to `now`, otherwise it is left alone.
Returns (tweet invoked?, resulting `lastPostedAt`). -/
def metricsPostGate (hasSignificantChange : Bool) (monitoringTier : ℕ)
    (subscribers now lastPostedAt : ℚ) : Bool × ℚ :=
  let hoursElapsed := (now - lastPostedAt) / (1000 * 60 * 60)
  if hasSignificantChange = true ∧ minHoursForPost monitoringTier subscribers ≤ hoursElapsed
  then (true, now)
  else (false, lastPostedAt)

/-- The minimum gap exactly as the claim words it: 4h / 6h / 12h for tiers
1 / 2 / 3, multiplied by 1.25 below 100K subscribers and by 0.75 above 10M. -/
def claimMinimumGap (monitoringTier : ℕ) (subscribers : ℚ) : ℚ :=
  (if monitoringTier = 1 then 4 else if monitoringTier = 2 then 6 else 12) *
    (if subscribers < 100000 then 5/4 else if 10000000 < subscribers then 3/4 else 1)

lemma minHoursForPost_eq_claimMinimumGap (tier : ℕ) (subs : ℚ)
    (htier : tier = 1 ∨ tier = 2 ∨ tier = 3) :
    minHoursForPost tier subs = claimMinimumGap tier subs := by
  have key : minHoursForPost tier subs =
      (if tier = 1 then (4 : ℚ) else if tier = 3 then 12 else 6) *
        (if subs < 100000 then 5/4 else if 10000000 < subs then 3/4 else 1) := by
    by_cases hbig : 10000000 < subs
    · have hns : ¬ subs < 100000 := by linarith
      simp only [minHoursForPost, if_pos hbig, if_neg hns]
    · by_cases hsmall : subs < 100000
      · simp only [minHoursForPost, if_neg hbig, if_pos hsmall]
      · simp only [minHoursForPost, if_neg hbig, if_neg hsmall, mul_one]
  rw [key, claimMinimumGap]
  rcases htier with h | h | h <;> subst h <;> norm_num

/-- C6: the metrics-update tweet is invoked iff a significant change was
detected and the hours since `lastPostedAt` reach the tier/size minimum gap
(4h/6h/12h for tiers 1/2/3, ×1.25 below 100K subscribers, ×0.75 above 10M);
passing the gate sets `lastPostedAt := now`, failing it leaves it unchanged. -/
theorem metricsUpdate_post_gate (sig : Bool) (tier : ℕ) (subs now last : ℚ)
    (htier : tier = 1 ∨ tier = 2 ∨ tier = 3) :
    ((metricsPostGate sig tier subs now last).1 = true ↔
      (sig = true ∧ claimMinimumGap tier subs ≤ (now - last) / (1000 * 60 * 60))) ∧
    ((metricsPostGate sig tier subs now last).1 = true →
      (metricsPostGate sig tier subs now last).2 = now) ∧
    ((metricsPostGate sig tier subs now last).1 = false →
      (metricsPostGate sig tier subs now last).2 = last) := by
  have hgap := minHoursForPost_eq_claimMinimumGap tier subs htier
  simp only [metricsPostGate, hgap]
  split_ifs with hc
  · exact ⟨by simp [hc.1, hc.2], fun _ => rfl, by simp⟩
  · refine ⟨⟨fun h => ?_, fun h => absurd h hc⟩, by simp, fun _ => rfl⟩
    simp at h

/-- Witness for `metricsUpdate_post_gate` at a concrete input: tier 1, 50K
subscribers, significant change, 6 hours elapsed. -/
theorem metricsUpdate_post_gate_witness :
    ((1 : ℕ) = 1 ∨ (1 : ℕ) = 2 ∨ (1 : ℕ) = 3) ∧
    (((metricsPostGate true 1 50000 21600000 0).1 = true ↔
      (true = true ∧ claimMinimumGap 1 50000 ≤ ((21600000 : ℚ) - 0) / (1000 * 60 * 60))) ∧
    ((metricsPostGate true 1 50000 21600000 0).1 = true →
      (metricsPostGate true 1 50000 21600000 0).2 = 21600000) ∧
    ((metricsPostGate true 1 50000 21600000 0).1 = false →
      (metricsPostGate true 1 50000 21600000 0).2 = 0)) :=
  ⟨Or.inl rfl, metricsUpdate_post_gate true 1 50000 21600000 0 (Or.inl rfl)⟩

/-- Embedding of the `statistics` block of `YoutubeChannel` (`youtubeClient.ts`). -/
structure YoutubeStatistics where
  viewCount : ℚ
  subscriberCount : ℚ
  videoCount : ℚ
deriving DecidableEq

/-- Embedding of the `YoutubeChannel` record (`youtubeClient.ts`). -/
structure YoutubeChannel where
  id : String
  title : String
  statistics : YoutubeStatistics
deriving DecidableEq

/-- Embedding of `isChannelTracked` (`db/storage.ts`): `findOne({channelId})`
is non-null. -/
def isChannelTracked (db : List ChannelDoc) (cid : String) : Bool :=
  (findChannel db cid).isSome

/-- Embedding of `trackChannel` (`db/storage.ts` lines 332-369): upsert — an
existing document gets its name, tracking flag, `lastTrendingDate`, tier
(`monitoringTier || 1`) and metrics overwritten; otherwise a fresh document is
created with an empty history. -/
def trackChannel (db : List ChannelDoc) (now : ℚ) (channelId name : String)
    (monitoringTier : ℕ) (metrics : ChannelMetrics) : List ChannelDoc :=
  let tier := if monitoringTier = 0 then 1 else monitoringTier
  match findChannel db channelId with
  | some _ =>
      db.map fun ch =>
        if ch.channelId = channelId then
          { ch with
            name := name
            isTracking := true
            lastTrendingDate := now
            monitoringTier := tier
            metrics := metrics }
        else ch
  | none =>
      db ++ [{ channelId := channelId
               name := name
               isTracking := true
               lastTrendingDate := now
               monitoringTier := tier
               metrics := metrics
               metricsHistory := [] }]

/-- The baseline metrics the discovery job stores for a newly tracked trending
creator (`youtubeScheduler.ts` lines 473-480): current subscriber/view counts,
zero likes, no video pointer, `lastChecked := now`. -/
def trendingBaselineMetrics (now : ℚ) (ch : YoutubeChannel) : ChannelMetrics :=
  { subscribers := ch.statistics.subscriberCount, views := ch.statistics.viewCount
    likes := 0, lastVideoId := "", lastVideoTimestamp := 0, lastChecked := now }

/-- Embedding of the per-creator body of the discovery loop
`YoutubeScheduler.getTrendingCreators` (`youtubeScheduler.ts` lines 463-606):
when the creator is not yet tracked, `trackChannel` is called at tier 1 with
the baseline metrics and a "now tracking" announcement is fired; when it is
already tracked, the store is not touched (the code only engages with Twitter
discussions).  The state is (store, announced ids). -/
def discoveryStep (now : ℚ) (st : List ChannelDoc × List String)
    (ch : YoutubeChannel) : List ChannelDoc × List String :=
  if isChannelTracked st.1 ch.id then st
  else (trackChannel st.1 now ch.id ch.title 1 (trendingBaselineMetrics now ch),
        st.2 ++ [ch.id])

/-- Embedding of the whole top-K loop of `getTrendingCreators`. -/
def getTrendingCreatorsUpdate (now : ℚ) (db : List ChannelDoc)
    (trending : List YoutubeChannel) : List ChannelDoc × List String :=
  trending.foldl (discoveryStep now) (db, [])

/-- A tracked channel document whose trending promotion is stale (tier 3,
`lastTrendingDate = 0`). -/
def staleDoc : ChannelDoc :=
  { channelId := "UC123", name := "Sample", isTracking := true
    lastTrendingDate := 0, monitoringTier := 3
    metrics := zeroCountersMetrics, metricsHistory := [] }

/-- The same creator as returned by the trending ranking. -/
def staleTrending : YoutubeChannel :=
  { id := "UC123", title := "Sample"
    statistics := { viewCount := 1000, subscriberCount := 500, videoCount := 10 } }

/-- C7 counterexample: a creator that is already tracked and appears in the
discovery top-K keeps its old `lastTrendingDate` (0, not the current time
86400000) and its old tier (3, not 1) — the discovery loop does not re-promote
already-tracked creators. -/
theorem discovery_no_repromotion_counterexample :
    isChannelTracked [staleDoc] staleTrending.id = true ∧
    (getTrendingCreatorsUpdate 86400000 [staleDoc] [staleTrending]).1 = [staleDoc] ∧
    staleDoc.lastTrendingDate ≠ 86400000 ∧
    staleDoc.monitoringTier ≠ 1 := by
  refine ⟨by decide, by decide, by decide, by decide⟩

/-- C7 amended: for each creator in the discovery top-K, if it is not yet
tracked a document is created at tier 1 with the current metrics as baseline
and a "now tracking" announcement fires; if it is already tracked, the store
and the announcement list are left unchanged (no `lastTrendingDate` refresh,
no tier change, no re-announcement). -/
theorem discovery_promotion_rule (now : ℚ) (db : List ChannelDoc)
    (ann : List String) (ch : YoutubeChannel) :
    (isChannelTracked db ch.id = true → discoveryStep now (db, ann) ch = (db, ann)) ∧
    (isChannelTracked db ch.id = false →
      (discoveryStep now (db, ann) ch).1 =
        db ++ [{ channelId := ch.id, name := ch.title, isTracking := true,
                 lastTrendingDate := now, monitoringTier := 1,
                 metrics := trendingBaselineMetrics now ch, metricsHistory := [] }] ∧
      (discoveryStep now (db, ann) ch).2 = ann ++ [ch.id]) := by
  constructor
  · intro h
    simp [discoveryStep, h]
  · intro h
    have hfind : findChannel db ch.id = none := by
      unfold isChannelTracked at h
      simpa [Option.isSome_iff_exists] using h
    simp [discoveryStep, isChannelTracked, hfind, trackChannel]

/-- Witness for `discovery_promotion_rule` at a concrete input: an untracked
creator. -/
theorem discovery_promotion_rule_witness :
    isChannelTracked [] staleTrending.id = false ∧
    ((isChannelTracked [] staleTrending.id = true →
      discoveryStep 86400000 ([], []) staleTrending = ([], [])) ∧
    (isChannelTracked [] staleTrending.id = false →
      (discoveryStep 86400000 ([], []) staleTrending).1 =
        [] ++ [{ channelId := staleTrending.id, name := staleTrending.title,
                 isTracking := true, lastTrendingDate := 86400000, monitoringTier := 1,
                 metrics := trendingBaselineMetrics 86400000 staleTrending,
                 metricsHistory := [] }] ∧
      (discoveryStep 86400000 ([], []) staleTrending).2 = [] ++ [staleTrending.id])) :=
  ⟨by decide, discovery_promotion_rule 86400000 [] [] staleTrending⟩

/-- The state consulted by `checkForNewVideos` (`youtubeScheduler.ts`): the
stored video pointer of the channel plus the process-lifetime in-memory
`postedVideoIds` set (modelled as a list). -/
structure VideoCheckState where
  lastVideoId : String
  lastVideoTimestamp : ℚ
  postedVideoIds : List String
deriving DecidableEq

/-- Embedding of `YoutubeScheduler.checkForNewVideos` (`youtubeScheduler.ts`
lines 377-440) on the latest fetched video: the notification fires exactly when
the id differs from the stored `lastVideoId`, the publish timestamp is strictly
newer than the stored `lastVideoTimestamp`, and the id is not in the posted
set; firing advances both stored pointers and records the id in the set. -/
def checkForNewVideos (s : VideoCheckState) (videoId : String)
    (videoTimestamp : ℚ) : Bool × VideoCheckState :=
  if videoId ≠ s.lastVideoId ∧ s.lastVideoTimestamp < videoTimestamp ∧
      videoId ∉ s.postedVideoIds then
    (true, { lastVideoId := videoId
             lastVideoTimestamp := videoTimestamp
             postedVideoIds := videoId :: s.postedVideoIds })
  else (false, s)

/-- Repeated checks within one process lifetime: each observation is the
(id, publish time) of the latest video seen at that check; returns the ids for
which a "new video" notification fired, in order. -/
def runVideoChecks (s : VideoCheckState) : List (String × ℚ) → List String
  | [] => []
  | (v, t) :: rest =>
      let r := checkForNewVideos s v t
      (if r.1 then [v] else []) ++ runVideoChecks r.2 rest

lemma runVideoChecks_count_zero_of_posted (obs : List (String × ℚ))
    (s : VideoCheckState) (v : String) (hv : v ∈ s.postedVideoIds) :
    (runVideoChecks s obs).count v = 0 := by
  induction obs generalizing s with
  | nil => rfl
  | cons p rest ih =>
      obtain ⟨w, t⟩ := p
      by_cases hc : w ≠ s.lastVideoId ∧ s.lastVideoTimestamp < t ∧ w ∉ s.postedVideoIds
      · have hwv : w ≠ v := fun he => hc.2.2 (he ▸ hv)
        simp only [runVideoChecks, checkForNewVideos, if_pos hc, if_true]
        rw [List.count_append,
          List.count_eq_zero.mpr (by simpa using Ne.symm hwv),
          ih _ (List.mem_cons_of_mem w hv)]
      · simp only [runVideoChecks, checkForNewVideos, if_neg hc]
        simpa using ih s hv

/-- C8: the "new video" notification fires exactly under the three conditions
(id changed, strictly newer timestamp, not already posted this process
lifetime), firing advances the stored pointers and records the id, a non-firing
check leaves the state untouched, and over any sequence of checks each distinct
video id is announced at most once. -/
theorem newVideo_fires_at_most_once (s : VideoCheckState)
    (obs : List (String × ℚ)) (v : String) (t : ℚ) :
    ((checkForNewVideos s v t).1 = true ↔
      (v ≠ s.lastVideoId ∧ s.lastVideoTimestamp < t ∧ v ∉ s.postedVideoIds)) ∧
    ((checkForNewVideos s v t).1 = true →
      (checkForNewVideos s v t).2 =
        { lastVideoId := v
          lastVideoTimestamp := t
          postedVideoIds := v :: s.postedVideoIds }) ∧
    ((checkForNewVideos s v t).1 = false → (checkForNewVideos s v t).2 = s) ∧
    (runVideoChecks s obs).count v ≤ 1 := by
  refine ⟨?_, ?_, ?_, ?_⟩
  · unfold checkForNewVideos
    split_ifs with hc
    · simpa using hc
    · simpa using hc
  · unfold checkForNewVideos
    split_ifs with hc
    · intro _; rfl
    · intro h; cases h
  · unfold checkForNewVideos
    split_ifs with hc
    · intro h; cases h
    · intro _; rfl
  · induction obs generalizing s with
    | nil => simp [runVideoChecks]
    | cons p rest ih =>
        obtain ⟨w, u⟩ := p
        by_cases hc : w ≠ s.lastVideoId ∧ s.lastVideoTimestamp < u ∧ w ∉ s.postedVideoIds
        · simp only [runVideoChecks, checkForNewVideos, if_pos hc, if_true]
          rw [List.count_append]
          by_cases hwv : w = v
          · subst hwv
            rw [runVideoChecks_count_zero_of_posted rest _ w (List.mem_cons_self w _)]
            simp
          · rw [List.count_eq_zero.mpr (by simpa using Ne.symm hwv)]
            simpa using ih _
        · simp only [runVideoChecks, checkForNewVideos, if_neg hc]
          simpa using ih s

/-- Witness for `newVideo_fires_at_most_once`: same video observed three times
only fires once (no hypothesis other than the embedded implications, exercised
at a concrete state). -/
theorem newVideo_fires_at_most_once_witness :
    (((checkForNewVideos ⟨"", 0, []⟩ "vid1" 5).1 = true ↔
      (("vid1" : String) ≠ "" ∧ (0 : ℚ) < 5 ∧ ("vid1" : String) ∉ ([] : List String))) ∧
    ((checkForNewVideos ⟨"", 0, []⟩ "vid1" 5).1 = true →
      (checkForNewVideos ⟨"", 0, []⟩ "vid1" 5).2 =
        { lastVideoId := "vid1"
          lastVideoTimestamp := 5
          postedVideoIds := ["vid1"] }) ∧
    ((checkForNewVideos ⟨"", 0, []⟩ "vid1" 5).1 = false →
      (checkForNewVideos ⟨"", 0, []⟩ "vid1" 5).2 = ⟨"", 0, []⟩) ∧
    (runVideoChecks ⟨"", 0, []⟩ [("vid1", 5), ("vid1", 5), ("vid1", 5)]).count "vid1" ≤ 1) :=
  newVideo_fires_at_most_once ⟨"", 0, []⟩ [("vid1", 5), ("vid1", 5), ("vid1", 5)] "vid1" 5

/-- Embedding of `AnalyticService.getChannelSizeFactor` (`analyticService.ts`):
six magnitude bands from ×2.0 below 1K subscribers down to ×0.6 at 10M and
above. -/
def getChannelSizeFactor (subscribers : ℚ) : ℚ :=
  if subscribers < 1000 then 2
  else if subscribers < 10000 then 3/2
  else if subscribers < 100000 then 6/5
  else if subscribers < 1000000 then 1
  else if subscribers < 10000000 then 4/5
  else 3/5

/-- Embedding of `AnalyticService.calculateEngagementScore`
(`analyticService.ts`): `viewsPerVideo * 0.4 + viewToSubRatio * 0.6` scaled by
the size factor, with `videoCount || 1` and a zero guard on the subscriber
ratio. -/
def calculateEngagementScore (channel : YoutubeChannel) : ℚ :=
  let subscribers := channel.statistics.subscriberCount
  let views := channel.statistics.viewCount
  let videoCount :=
    if channel.statistics.videoCount = 0 then 1 else channel.statistics.videoCount
  let viewsPerVideo := views / videoCount
  let viewToSubRatio := if 0 < subscribers then views / subscribers else 0
  (viewsPerVideo * (2/5) + viewToSubRatio * (3/5)) * getChannelSizeFactor subscribers

/-- C9: for channels with positive subscriber and video counts the engagement
score is exactly `(views/videoCount)*0.4 + (views/subscribers)*0.6` times the
six-band size factor (2.0 / 1.5 / 1.2 / 1.0 / 0.8 / 0.6), and a 50M-subscriber
channel with the same raw view and video numbers as a 500-subscriber channel
never scores above it. -/
theorem engagementScore_formula_and_dampening (ch : YoutubeChannel) (subs v vc : ℚ)
    (hsub : 0 < ch.statistics.subscriberCount) (hvid : ch.statistics.videoCount ≠ 0)
    (hv : 0 ≤ v) (hvc : 0 ≤ vc) :
    calculateEngagementScore ch =
      (ch.statistics.viewCount / ch.statistics.videoCount * (2/5) +
        ch.statistics.viewCount / ch.statistics.subscriberCount * (3/5)) *
        getChannelSizeFactor ch.statistics.subscriberCount ∧
    (subs < 1000 → getChannelSizeFactor subs = 2) ∧
    (1000 ≤ subs → subs < 10000 → getChannelSizeFactor subs = 3/2) ∧
    (10000 ≤ subs → subs < 100000 → getChannelSizeFactor subs = 6/5) ∧
    (100000 ≤ subs → subs < 1000000 → getChannelSizeFactor subs = 1) ∧
    (1000000 ≤ subs → subs < 10000000 → getChannelSizeFactor subs = 4/5) ∧
    (10000000 ≤ subs → getChannelSizeFactor subs = 3/5) ∧
    calculateEngagementScore
        { id := "mega", title := "mega"
          statistics := { viewCount := v, subscriberCount := 50000000, videoCount := vc } } ≤
      calculateEngagementScore
        { id := "small", title := "small"
          statistics := { viewCount := v, subscriberCount := 500, videoCount := vc } } := by
  refine ⟨?_, ?_, ?_, ?_, ?_, ?_, ?_, ?_⟩
  · simp only [calculateEngagementScore, if_neg hvid, if_pos hsub]
  · intro h1
    rw [getChannelSizeFactor, if_pos h1]
  · intro h1 h2
    rw [getChannelSizeFactor, if_neg (by linarith : ¬ subs < 1000), if_pos h2]
  · intro h1 h2
    rw [getChannelSizeFactor, if_neg (by linarith : ¬ subs < 1000),
      if_neg (by linarith : ¬ subs < 10000), if_pos h2]
  · intro h1 h2
    rw [getChannelSizeFactor, if_neg (by linarith : ¬ subs < 1000),
      if_neg (by linarith : ¬ subs < 10000), if_neg (by linarith : ¬ subs < 100000),
      if_pos h2]
  · intro h1 h2
    rw [getChannelSizeFactor, if_neg (by linarith : ¬ subs < 1000),
      if_neg (by linarith : ¬ subs < 10000), if_neg (by linarith : ¬ subs < 100000),
      if_neg (by linarith : ¬ subs < 1000000), if_pos h2]
  · intro h1
    rw [getChannelSizeFactor, if_neg (by linarith : ¬ subs < 1000),
      if_neg (by linarith : ¬ subs < 10000), if_neg (by linarith : ¬ subs < 100000),
      if_neg (by linarith : ¬ subs < 1000000), if_neg (by linarith : ¬ subs < 10000000)]
  · have hD : (0 : ℚ) < (if vc = 0 then 1 else vc) := by
      split_ifs with h
      · norm_num
      · exact lt_of_le_of_ne hvc (Ne.symm h)
    have hx : 0 ≤ v / (if vc = 0 then 1 else vc) := div_nonneg hv hD.le
    simp only [calculateEngagementScore, getChannelSizeFactor]
    norm_num
    nlinarith [hx, hv]

/-- Witness for `engagementScore_formula_and_dampening` at a concrete input. -/
theorem engagementScore_formula_and_dampening_witness :
    (0 < (500 : ℚ) ∧ (10 : ℚ) ≠ 0 ∧ (0 : ℚ) ≤ 1000 ∧ (0 : ℚ) ≤ 10) ∧
    (calculateEngagementScore staleTrending =
      (staleTrending.statistics.viewCount / staleTrending.statistics.videoCount * (2/5) +
        staleTrending.statistics.viewCount / staleTrending.statistics.subscriberCount * (3/5)) *
        getChannelSizeFactor staleTrending.statistics.subscriberCount ∧
    ((500 : ℚ) < 1000 → getChannelSizeFactor 500 = 2) ∧
    ((1000 : ℚ) ≤ 500 → (500 : ℚ) < 10000 → getChannelSizeFactor 500 = 3/2) ∧
    ((10000 : ℚ) ≤ 500 → (500 : ℚ) < 100000 → getChannelSizeFactor 500 = 6/5) ∧
    ((100000 : ℚ) ≤ 500 → (500 : ℚ) < 1000000 → getChannelSizeFactor 500 = 1) ∧
    ((1000000 : ℚ) ≤ 500 → (500 : ℚ) < 10000000 → getChannelSizeFactor 500 = 4/5) ∧
    ((10000000 : ℚ) ≤ 500 → getChannelSizeFactor 500 = 3/5) ∧
    calculateEngagementScore
        { id := "mega", title := "mega"
          statistics := { viewCount := 1000, subscriberCount := 50000000, videoCount := 10 } } ≤
      calculateEngagementScore
        { id := "small", title := "small"
          statistics := { viewCount := 1000, subscriberCount := 500, videoCount := 10 } }) :=
  ⟨⟨by norm_num, by norm_num, by norm_num, by norm_num⟩,
    engagementScore_formula_and_dampening staleTrending 500 1000 10
      (by norm_num [staleTrending]) (by norm_num [staleTrending]) (by norm_num) (by norm_num)⟩
